import Mathlib

/-!
Shallow embedding of the command-protocol layer of Modules/ESP.py
(Beetle-Classifier-Robot): the Motor (axis controller) command pipeline,
its retrying transport wrappers, the error-code decoder, the bounds check
in move, the simulated (testflight) mode, and the Polarizer composite.

Conventions of the embedding:
- Python floats (positions, bounds, degrees) are modelled as rationals;
  every arithmetic operation appearing in the source (addition, comparison)
  is exact on the values the claims use.
- The VISA transport is modelled as an oracle: for each attempt number,
  whether a write succeeds (Nat → Bool) and what a query returns
  (Nat → Option String, none meaning a raised pyvisa.VisaIOError).
- A Python function that can raise an uncaught exception is modelled with
  Except PyExc; a Python function with no return statement returns none
  (Python None) modelled as Option.
-/

/-- The Motor.COMMANDS dict of ESP.py: logical operation name to opcode. -/
def COMMANDS : List (String × String) :=
  [("define home", "DH"),
   ("move to absolute position", "PA"),
   ("move to relative position", "PR"),
   ("read error code", "TE?"),
   ("search for home", "OR"),
   ("set home search mode", "OM"),
   ("set velocity", "VA"),
   ("wait for motion stop", "WS")]

/-- The Motor.ERROR_CODES dict of ESP.py: error code to description. -/
def ERROR_CODES : List (String × String) :=
  [("1", "PCI COMMUNICATION TIME-OUT"),
   ("7", "PARAMETER OUT OF RANGE"),
   ("9", "AXIS NUMBER OUT OF RANGE"),
   ("10", "MAXIMUM VELOCITY EXCEEDED"),
   ("13", "MOTOR NOT ENABLED"),
   ("37", "AXIS NUMBER MISSING"),
   ("38", "COMMAND PARAMETER MISSING")]

/-- Python dict subscript and membership: lookup of a key in an
association list, as used for COMMANDS and ERROR_CODES. -/
def dictLookup (k : String) : List (String × String) → Option String
  | [] => none
  | (a, b) :: rest => if k = a then some b else dictLookup k rest

/-- Python substring test: the expression (pat in s) on strings. -/
def strContains (s pat : String) : Bool :=
  decide (pat.data <:+: s.data)

/-- The two mode strings accepted by Motor.move. -/
inductive MoveMode
  | relative
  | absolute
deriving DecidableEq, Repr

/-- Lines 126-129 of ESP.py: new_position is degrees when the mode is
absolute and current + degrees when relative (current is what
get_current_position returns). -/
def target_position (mode : MoveMode) (current degrees : ℚ) : ℚ :=
  match mode with
  | .absolute => degrees
  | .relative => current + degrees

/-- Stand-in for the decimal rendering Python performs when interpolating
the float new_position into the command f-string.  No claim in this
development depends on the digits produced. -/
def pyFloatRepr (x : ℚ) : String := toString x

/-- Lines 163-167 of ESP.py: the wire string built by Motor.send_command.
Returns none when the operation name is not a key of COMMANDS (the dict
subscript raises KeyError there).  When the operation name contains the
substring "move", the wait-for-motion-stop suffix is chained with a
semicolon. -/
def full_command (axis : Nat) (command parameter : String) : Option String :=
  match dictLookup command COMMANDS with
  | none => none
  | some opcode =>
    let base := toString axis ++ opcode ++ parameter
    if strContains command "move" then
      some (base ++ ";" ++ toString axis
        ++ (dictLookup "wait for motion stop" COMMANDS).getD "" ++ "0")
    else
      some base

/-- Lines 173-174 of ESP.py: drop the first character of the error
response when it equals str(axis) and the response has more than two
characters.  Python compares err[0], a one-character string, against
str(self.axis), hence the take 1 comparison.  Only ever invoked on a
nonempty response (the caller models the IndexError on an empty one). -/
def stripAxisEcho (axis : Nat) (err : String) : String :=
  if err.take 1 = toString axis ∧ err.length > 2 then err.drop 1 else err

/-- Lines 189-202 of ESP.py, Motor.write_command: recursive retry around
instrument.write.  Returns the Python return value (none for the implicit
None) together with the list of attempt numbers on which a transport write
was attempted.  The source discards the recursive call's return value, so
the string "VisaIOError" is returned only by the frame whose own attempt
number is 3; outer frames fall through and return None. -/
def write_command (command : String) (w : Nat → Bool) (attempt : Nat) :
    Option String × List Nat :=
  if w attempt then
    (none, [attempt])
  else
    if h : attempt < 3 then
      (none, attempt :: (write_command command w (attempt + 1)).2)
    else
      (some "VisaIOError", [attempt])
termination_by 3 - attempt
decreasing_by omega

/-- Lines 204-218 of ESP.py, Motor.query_command: recursive retry around
instrument.query.  Unlike write_command, the recursive call's result is
bound to output and returned, so the final "VisaIOError" propagates to the
original caller.  Returns the result together with the list of attempt
numbers used. -/
def query_command (command : String) (q : Nat → Option String) (attempt : Nat) :
    String × List Nat :=
  match q attempt with
  | some output => (output, [attempt])
  | none =>
    if h : attempt < 3 then
      let deeper := query_command command q (attempt + 1)
      (deeper.1, attempt :: deeper.2)
    else
      ("VisaIOError", [attempt])
termination_by 3 - attempt
decreasing_by omega

/-- Uncaught Python exceptions that ESP.py itself can raise inside
Motor.send_command: the COMMANDS dict subscript (KeyError) and err[0] on an
empty response (IndexError).  Nothing in ESP.py catches either. -/
inductive PyExc
  | keyError (key : String)
  | indexError
deriving DecidableEq, Repr

instance {ε α : Type} [DecidableEq ε] [DecidableEq α] : DecidableEq (Except ε α)
  | .ok a, .ok b => decidable_of_iff (a = b) (by simp)
  | .ok _, .error _ => isFalse (by simp)
  | .error _, .ok _ => isFalse (by simp)
  | .error e, .error f => decidable_of_iff (e = f) (by simp)

/-- Observable outcome of one Motor.send_command call in real mode:
ret is the Python result (ok b for return b, error e for an uncaught
exception), written is the command string handed to write_command if the
pipeline reached it, queried records whether the read-error-code query was
issued, and report is some (code, known) when a nonzero error code was
logged (known is whether the code is a key of ERROR_CODES, selecting the
descriptive or the generic log branch). -/
structure SendOutcome where
  ret : Except PyExc Bool
  written : Option String
  queried : Bool
  report : Option (String × Bool)
deriving DecidableEq, Repr

/-- Lines 159-187 of ESP.py, Motor.send_command in real (non-testflight)
mode.  The wire string is built (KeyError propagates when the operation
name is unknown, before any transport call), write_command is invoked and
its return value discarded, then the read-error-code query result is
normalized by stripAxisEcho and compared with "0". -/
def send_command_real (axis : Nat) (command parameter : String)
    (w : Nat → Bool) (q : Nat → Option String) : SendOutcome :=
  match full_command axis command parameter with
  | none => ⟨.error (.keyError command), none, false, none⟩
  | some full =>
    let _wr := write_command full w 1
    let errRaw := (query_command ((dictLookup "read error code" COMMANDS).getD "") q 1).1
    if errRaw.isEmpty then
      ⟨.error .indexError, some full, true, none⟩
    else
      let err := stripAxisEcho axis errRaw
      if err = "0" then
        ⟨.ok true, some full, true, none⟩
      else
        ⟨.ok false, some full, true, some (err, (dictLookup err ERROR_CODES).isSome)⟩

/-- Testflight-mode axis state: bounds and the current_position field set
to 0.0 in Motor.__init__ when testflight is true. -/
structure SimMotor where
  bounds : ℚ × ℚ
  current_position : ℚ
deriving DecidableEq, Repr

/-- Lines 119-121 of ESP.py: in testflight mode get_current_position
returns the stored current_position. -/
def SimMotor.get_current_position (m : SimMotor) : ℚ :=
  m.current_position

/-- Lines 125-139 of ESP.py, Motor.move in testflight mode.  Computes
new_position, checks the inclusive bounds, and either calls send_command
(which in testflight returns True immediately and touches no state) or
logs the rejection.  Returns the post-call state together with whether
send_command was invoked; the Python method itself returns None in every
branch. -/
def SimMotor.move (m : SimMotor) (degrees : ℚ) (mode : MoveMode) :
    SimMotor × Bool :=
  let new_position := target_position mode m.current_position degrees
  if m.bounds.1 ≤ new_position ∧ new_position ≤ m.bounds.2 then
    (m, true)
  else
    (m, false)

/-- Observable outcome of one Motor.move call in real mode: ret is the
Python return value (none in every branch: move has no return statement),
sent is the wire string handed to the transport when send_command was
reached, and positionQueried records whether get_current_position issued
its TP? query (relative mode only, and before the bounds check). -/
structure MoveOutcome where
  ret : Option Bool
  sent : Option String
  positionQueried : Bool
deriving DecidableEq, Repr

/-- Lines 125-139 of ESP.py, Motor.move in real mode.  reported is the
position the instrument answers to the TP? query of get_current_position
(consulted only in relative mode).  The bounds check is inclusive at both
ends; when it fails only a log line is produced and nothing is sent. -/
def move_real (axis : Nat) (bounds : ℚ × ℚ) (reported degrees : ℚ)
    (mode : MoveMode) (w : Nat → Bool) (q : Nat → Option String) : MoveOutcome :=
  let positionQueried := match mode with
    | .relative => true
    | .absolute => false
  let new_position := target_position mode reported degrees
  if bounds.1 ≤ new_position ∧ new_position ≤ bounds.2 then
    let out := send_command_real axis "move to absolute position"
      (pyFloatRepr new_position) w q
    ⟨none, out.written, positionQueried⟩
  else
    ⟨none, none, positionQueried⟩

/-- Transport-level events of the real-mode pipeline, used to state
ordering properties of Polarizer.set: a move command written for an axis
with an absolute target, or a TP? position query for an axis. -/
inductive Ev
  | write (axis : Nat) (target : ℚ)
  | readPos (axis : Nat)
deriving DecidableEq, Repr

/-- Event trace of Motor.move in real mode: relative mode first issues the
TP? query of get_current_position; then, when the target passes the
inclusive bounds check, the move command is written. -/
def move_events (axis : Nat) (bounds : ℚ × ℚ) (reported degrees : ℚ)
    (mode : MoveMode) : List Ev :=
  let pre : List Ev := match mode with
    | .relative => [Ev.readPos axis]
    | .absolute => []
  let new_position := target_position mode reported degrees
  if bounds.1 ≤ new_position ∧ new_position ≤ bounds.2 then
    pre ++ [Ev.write axis new_position]
  else
    pre

/-- Lines 232-239 of ESP.py, Polarizer.set: move the linear polarizer
(axis ax1) to absolute degrees, read back its position (the instrument
answers reported), then move the quarter-wave plate (axis ax2) to absolute
reported + 45.  The 0 passed as the reported-position argument of the two
absolute moves is unused: absolute mode never consults it. -/
def polarizer_set_events (ax1 ax2 : Nat) (b1 b2 : ℚ × ℚ)
    (degrees reported : ℚ) : List Ev :=
  move_events ax1 b1 0 degrees .absolute
    ++ [Ev.readPos ax1]
    ++ move_events ax2 b2 0 (reported + 45) .absolute

/-! Helper lemmas shared by the claim theorems. -/

/-- Nat.digitChar sends a value below ten to a decimal digit character. -/
lemma digitChar_isDigit : ∀ m : Nat, m < 10 → (Nat.digitChar m).isDigit = true := by
  decide

/-- All characters produced by Nat.toDigitsCore in base ten are decimal
digits, provided the accumulator only holds digits. -/
lemma toDigitsCore_digits (f : Nat) : ∀ (n : Nat) (ds : List Char),
    (∀ c ∈ ds, c.isDigit = true) → ∀ c ∈ Nat.toDigitsCore 10 f n ds, c.isDigit = true := by
  induction f with
  | zero => intro n ds hds c hc; exact hds c hc
  | succ f ih =>
    intro n ds hds c hc
    simp only [Nat.toDigitsCore] at hc
    have hd : ∀ x ∈ Nat.digitChar (n % 10) :: ds, x.isDigit = true := by
      intro x hx
      rcases List.mem_cons.mp hx with h | h
      · subst h; exact digitChar_isDigit _ (Nat.mod_lt _ (by norm_num))
      · exact hds x h
    split at hc
    · exact hd c hc
    · exact ih (n / 10) _ hd c hc

/-- The decimal rendering of a natural number consists of digit characters. -/
lemma toString_nat_all_digits (n : Nat) : ∀ c ∈ (toString n).data, c.isDigit = true := by
  show ∀ c ∈ Nat.toDigitsCore 10 (n + 1) n [], c.isDigit = true
  exact toDigitsCore_digits (n + 1) n [] (by simp)

/-- No natural number renders as the string consisting of the letter V. -/
lemma toString_nat_ne_V (n : Nat) : toString n ≠ "V" := by
  intro h
  have hv : 'V' ∈ (toString n).data := by rw [h]; decide
  have := toString_nat_all_digits n 'V' hv
  simp at this

/-- The axis-echo stripping never fires on the string VisaIOError: its
first character is the letter V while str(axis) is a decimal numeral. -/
lemma strip_visa (axis : Nat) : stripAxisEcho axis "VisaIOError" = "VisaIOError" := by
  unfold stripAxisEcho
  rw [if_neg]
  rintro ⟨h1, -⟩
  have ht : "VisaIOError".take 1 = "V" := by decide
  rw [ht] at h1
  exact toString_nat_ne_V axis h1.symm

/-- Unfolding lemma for send_command_real, with the read-error-code wire
string evaluated and the discarded write binding removed. -/
lemma send_command_real_def (axis : Nat) (c p : String) (w : Nat → Bool)
    (q : Nat → Option String) :
    send_command_real axis c p w q =
      match full_command axis c p with
      | none => ⟨.error (.keyError c), none, false, none⟩
      | some full =>
        if ((query_command "TE?" q 1).1).isEmpty then
          ⟨.error .indexError, some full, true, none⟩
        else
          if stripAxisEcho axis (query_command "TE?" q 1).1 = "0" then
            ⟨.ok true, some full, true, none⟩
          else
            ⟨.ok false, some full, true,
              some (stripAxisEcho axis (query_command "TE?" q 1).1,
                (dictLookup (stripAxisEcho axis (query_command "TE?" q 1).1) ERROR_CODES).isSome)⟩ :=
  rfl

/-- A query transport that raises on every attempt makes exactly the three
attempts and yields the literal string VisaIOError. -/
lemma query_all_fail (cmd : String) :
    query_command cmd (fun _ => none) 1 = ("VisaIOError", [1, 2, 3]) := by
  simp [query_command]

/-- A write transport that raises on every attempt makes exactly the three
attempts, and the original call returns None: the recursive retry discards
the inner return value of VisaIOError. -/
lemma write_all_fail (cmd : String) :
    write_command cmd (fun _ => false) 1 = (none, [1, 2, 3]) := by
  simp [write_command]

/-- In every branch of send_command_real, the written field equals the
full_command wire string (none exactly when the opcode lookup fails). -/
lemma send_command_real_written (axis : Nat) (c p : String) (w : Nat → Bool)
    (q : Nat → Option String) :
    (send_command_real axis c p w q).written = full_command axis c p := by
  rw [send_command_real_def]
  cases hf : full_command axis c p with
  | none => rfl
  | some full => split_ifs <;> rfl

/-- A successful lookup in COMMANDS pins the operation name to one of the
eight keys. -/
lemma dictLookup_COMMANDS_key (cmd opc : String)
    (h : dictLookup cmd COMMANDS = some opc) :
    cmd = "define home" ∨ cmd = "move to absolute position" ∨
    cmd = "move to relative position" ∨ cmd = "read error code" ∨
    cmd = "search for home" ∨ cmd = "set home search mode" ∨
    cmd = "set velocity" ∨ cmd = "wait for motion stop" := by
  simp only [COMMANDS, dictLookup] at h
  repeat' split at h
  all_goals simp_all

/-- The wire string for the move-to-absolute-position operation. -/
lemma full_command_move_abs (axis : Nat) (par : String) :
    full_command axis "move to absolute position" par =
      some (toString axis ++ "PA" ++ par ++ ";" ++ toString axis ++ "WS" ++ "0") :=
  rfl

/-- When the operation name resolves to an opcode, full_command produces
the spec wire grammar: axis id, opcode and parameter, with the
wait-for-motion-stop suffix chained after a semicolon exactly for the
operations containing the substring move. -/
lemma full_command_eq_some (axis : Nat) (c p opc : String)
    (h : dictLookup c COMMANDS = some opc) :
    full_command axis c p =
      some (if strContains c "move"
        then toString axis ++ opc ++ p ++ ";" ++ toString axis ++ "WS" ++ "0"
        else toString axis ++ opc ++ p) := by
  unfold full_command
  rw [h]
  dsimp only
  have hws : (dictLookup "wait for motion stop" COMMANDS).getD "" = "WS" := rfl
  cases hs : strContains c "move" <;> simp [hs, hws]

/-! Claim theorems. -/

/-- C1: counterexample.  In simulated mode, starting from SimulatedState
0.0, two accepted relative moves of 10 leave getCurrentPosition at 0.0,
not 20.0: the testflight send_command returns True without updating
current_position, so simulated moves never accumulate. -/
theorem c1_counterexample :
    (SimMotor.move ⟨(-180, 180), 0⟩ 10 .relative).2 = true ∧
    ((SimMotor.move ⟨(-180, 180), 0⟩ 10 .relative).1.move 10 .relative).2 = true ∧
    ((SimMotor.move ⟨(-180, 180), 0⟩ 10 .relative).1.move 10 .relative).1.get_current_position = 0 ∧
    ¬((SimMotor.move ⟨(-180, 180), 0⟩ 10 .relative).1.move 10 .relative).1.get_current_position = 20 := by
  norm_num [SimMotor.move, SimMotor.get_current_position, target_position]

/-- C1 (amended): a simulated move, accepted or rejected, leaves the
stored SimulatedState unchanged, and getCurrentPosition returns the stored
SimulatedState; hence the scenario of two relative moves of 10 from 0.0
yields 0.0. -/
theorem c1_sim_move_preserves_state (m : SimMotor) (degrees : ℚ) (mode : MoveMode) :
    (m.move degrees mode).1 = m ∧
    m.get_current_position = m.current_position := by
  constructor
  · simp only [SimMotor.move]
    split <;> rfl
  · rfl

/-- C2: counterexample.  With a transport whose writes fail on all three
attempts (the trace [1, 2, 3] confirms all three were made and the call
returned None) but whose read-error-code query answers 0, send_command
returns True: the call silently reports success after failing all write
retries. -/
theorem c2_counterexample :
    (write_command "1VA4" (fun _ => false) 1).2 = [1, 2, 3] ∧
    (write_command "1VA4" (fun _ => false) 1).1 = none ∧
    (send_command_real 1 "set velocity" "4" (fun _ => false) (fun _ => some "0")).ret = .ok true := by
  have hw : write_command "1VA4" (fun _ => false) 1 = (none, [1, 2, 3]) := write_all_fail _
  have hq : query_command "TE?" (fun _ => some "0") 1 = ("0", [1]) := by
    simp [query_command]
  have hf : full_command 1 "set velocity" "4" = some "1VA4" := rfl
  refine ⟨by rw [hw], by rw [hw], ?_⟩
  simp only [send_command_real_def, hf, hq]
  rfl

/-- C2 (amended): send_command never consults the outcome of the write:
its result is identical for any two write transports, and it reports
success exactly when the read-error-code query decodes to 0.  In
particular, when the error query itself fails all three attempts the call
returns False, but a failed write together with a query answering 0 is
reported as success. -/
theorem c2_result_ignores_write_outcome (axis : Nat) (c p : String)
    (w wAlt : Nat → Bool) (q : Nat → Option String) (opc : String)
    (h : dictLookup c COMMANDS = some opc) :
    send_command_real axis c p w q = send_command_real axis c p wAlt q ∧
    (send_command_real axis c p w (fun _ => none)).ret = .ok false := by
  constructor
  · rfl
  · simp only [send_command_real_def, full_command_eq_some axis c p opc h,
      query_all_fail, strip_visa]
    rfl

/-- C2 witness at concrete inputs. -/
theorem c2_result_ignores_write_outcome_witness :
    send_command_real 1 "set velocity" "4" (fun _ => false) (fun _ => some "0") =
      send_command_real 1 "set velocity" "4" (fun _ => true) (fun _ => some "0") ∧
    (send_command_real 1 "set velocity" "4" (fun _ => false) (fun _ => none)).ret = .ok false :=
  c2_result_ignores_write_outcome 1 "set velocity" "4" (fun _ => false)
    (fun _ => true) (fun _ => some "0") "VA" rfl

/-- C3: counterexample.  For axis 1 and the two-character response 17, the
first character equals the axis id and the length exceeds one, so the
claim requires the leading character to be dropped yielding 7; the decoder
leaves the response unchanged because its guard requires length strictly
greater than two. -/
theorem c3_counterexample :
    ("17".take 1 = toString 1 ∧ "17".length > 1) ∧
    stripAxisEcho 1 "17" = "17" ∧ "17".drop 1 = "7" := by
  refine ⟨by decide, ?_, by decide⟩
  unfold stripAxisEcho
  rw [if_neg]
  rintro ⟨-, h2⟩
  revert h2
  decide

/-- C3 (amended): the decoder drops the leading character exactly when the
first character equals the axis id string and the response has more than
two characters; responses of length one or two are never stripped. -/
theorem c3_strip_requires_length_three (axis : Nat) (err : String) (_hne : err ≠ "") :
    (err.take 1 = toString axis ∧ err.length > 2 → stripAxisEcho axis err = err.drop 1) ∧
    (err.length ≤ 2 → stripAxisEcho axis err = err) := by
  constructor
  · intro h
    unfold stripAxisEcho
    rw [if_pos h]
  · intro h
    unfold stripAxisEcho
    rw [if_neg]
    rintro ⟨-, h2⟩
    omega

/-- C3 witness at concrete inputs. -/
theorem c3_strip_requires_length_three_witness :
    stripAxisEcho 1 "117" = "117".drop 1 ∧ stripAxisEcho 1 "1" = "1" :=
  ⟨(c3_strip_requires_length_three 1 "117" (by decide)).1 (by decide),
   (c3_strip_requires_length_three 1 "1" (by decide)).2 (by decide)⟩

/-- C4: counterexample.  With bounds [-180, 180], the rejected call
move(200, absolute) returns the same Python value (None) as the accepted
call move(0, absolute): the rejection is only logged, so the caller cannot
distinguish an OutOfBounds result from a success through the result of the
call. -/
theorem c4_counterexample :
    (move_real 1 (-180, 180) 0 200 .absolute (fun _ => true) (fun _ => some "0")).ret =
      (move_real 1 (-180, 180) 0 0 .absolute (fun _ => true) (fun _ => some "0")).ret ∧
    (move_real 1 (-180, 180) 0 200 .absolute (fun _ => true) (fun _ => some "0")).ret = none := by
  norm_num [move_real, target_position]

/-- C4 (amended): when the computed target is outside the bounds, no move
command is sent (and in absolute mode no transport call occurs at all; in
relative mode the position query has already been issued before the
check), the rejection is only logged, and move returns None exactly as it
does for an accepted move. -/
theorem c4_out_of_bounds_rejected_locally (axis : Nat) (bounds : ℚ × ℚ)
    (reported degrees : ℚ) (mode : MoveMode) (w : Nat → Bool) (q : Nat → Option String)
    (h : ¬(bounds.1 ≤ target_position mode reported degrees ∧
           target_position mode reported degrees ≤ bounds.2)) :
    (move_real axis bounds reported degrees mode w q).sent = none ∧
    (move_real axis bounds reported degrees mode w q).ret = none ∧
    (mode = .absolute → (move_real axis bounds reported degrees mode w q).positionQueried = false) := by
  have hm : move_real axis bounds reported degrees mode w q =
      ⟨none, none, match mode with | .relative => true | .absolute => false⟩ := by
    simp only [move_real]
    rw [if_neg h]
    cases mode <;> rfl
  refine ⟨by rw [hm], by rw [hm], ?_⟩
  rintro rfl
  rw [hm]

/-- C4 witness at concrete inputs. -/
theorem c4_out_of_bounds_rejected_locally_witness :
    (move_real 1 (-180, 180) 0 200 .absolute (fun _ => true) (fun _ => some "0")).sent = none ∧
    (move_real 1 (-180, 180) 0 200 .absolute (fun _ => true) (fun _ => some "0")).ret = none ∧
    (MoveMode.absolute = MoveMode.absolute →
      (move_real 1 (-180, 180) 0 200 .absolute (fun _ => true) (fun _ => some "0")).positionQueried = false) :=
  c4_out_of_bounds_rejected_locally 1 (-180, 180) 0 200 .absolute
    (fun _ => true) (fun _ => some "0") (by norm_num [target_position])

/-- C5: evaluation at the failing input.  A write transport failing on all
three attempts makes exactly the attempts 1, 2, 3 (no fourth) but the
original call returns None rather than the TransportError marker, because
the recursive retry discards the inner return value; the query retry
propagates correctly: two failures then a success yield the successful
response after exactly three attempts, and three failures yield the
VisaIOError marker after exactly three attempts. -/
theorem c5_retry_evaluation :
    write_command "1PA90.0;1WS0" (fun _ => false) 1 = (none, [1, 2, 3]) ∧
    query_command "TE?" (fun i => if i < 3 then none else some "0") 1 = ("0", [1, 2, 3]) ∧
    query_command "TE?" (fun _ => none) 1 = ("VisaIOError", [1, 2, 3]) := by
  refine ⟨write_all_fail _, ?_, query_all_fail _⟩
  norm_num [query_command]

/-- C6: in Polarizer.set the transport events are, in order: the absolute
move of the linear-polarizer axis to the requested degrees, the read-back
of that axis's position, and the absolute move of the quarter-wave axis to
exactly reported + 45, where reported is the achieved position the
instrument answered (not the requested degrees). -/
theorem c6_composite_offset_from_achieved (ax1 ax2 : Nat) (b1 b2 : ℚ × ℚ)
    (degrees reported : ℚ)
    (h1 : b1.1 ≤ degrees ∧ degrees ≤ b1.2)
    (h2 : b2.1 ≤ reported + 45 ∧ reported + 45 ≤ b2.2) :
    polarizer_set_events ax1 ax2 b1 b2 degrees reported =
      [Ev.write ax1 degrees, Ev.readPos ax1, Ev.write ax2 (reported + 45)] := by
  simp only [polarizer_set_events, move_events, target_position]
  rw [if_pos h1, if_pos h2]
  simp

/-- C6 witness: a concrete run in which the achieved position 29.5 differs
from the requested 30 degrees and the quarter-wave target is 74.5. -/
theorem c6_composite_offset_from_achieved_witness :
    polarizer_set_events 1 2 (-410, 410) (-410, 410) 30 (59 / 2) =
      [Ev.write 1 30, Ev.readPos 1, Ev.write 2 ((59 : ℚ) / 2 + 45)] :=
  c6_composite_offset_from_achieved 1 2 (-410, 410) (-410, 410) 30 (59 / 2)
    (by norm_num) (by norm_num)

/-- C7: for every operation name with an opcode mapping, the codec emits
the wire string of axis id, opcode and parameter, chained with a semicolon
and the wait-for-motion-stop suffix (axis id, WS, 0) exactly when the
operation is a motion command, where motion commands are exactly the two
move operations of the table. -/
theorem c7_wire_grammar (axis : Nat) (cmd param opc : String)
    (h : dictLookup cmd COMMANDS = some opc) :
    full_command axis cmd param =
      some (if strContains cmd "move"
        then toString axis ++ opc ++ param ++ ";" ++ toString axis ++ "WS" ++ "0"
        else toString axis ++ opc ++ param) ∧
    (strContains cmd "move" = true ↔
      (cmd = "move to absolute position" ∨ cmd = "move to relative position")) := by
  refine ⟨full_command_eq_some axis cmd param opc h, ?_, ?_⟩
  · intro hm
    rcases dictLookup_COMMANDS_key cmd opc h with rfl | rfl | rfl | rfl | rfl | rfl | rfl | rfl
    all_goals first
      | exact Or.inl rfl
      | exact Or.inr rfl
      | exact absurd hm (by decide)
  · rintro (rfl | rfl) <;> decide

/-- C7 witness at concrete inputs: a motion command and a non-motion
command. -/
theorem c7_wire_grammar_witness :
    (full_command 3 "move to absolute position" "90.0" =
      some (if strContains "move to absolute position" "move"
        then toString 3 ++ "PA" ++ "90.0" ++ ";" ++ toString 3 ++ "WS" ++ "0"
        else toString 3 ++ "PA" ++ "90.0") ∧
    (strContains "move to absolute position" "move" = true ↔
      ("move to absolute position" = "move to absolute position" ∨
       "move to absolute position" = "move to relative position"))) ∧
    (full_command 3 "set velocity" "4" =
      some (if strContains "set velocity" "move"
        then toString 3 ++ "VA" ++ "4" ++ ";" ++ toString 3 ++ "WS" ++ "0"
        else toString 3 ++ "VA" ++ "4") ∧
    (strContains "set velocity" "move" = true ↔
      ("set velocity" = "move to absolute position" ∨
       "set velocity" = "move to relative position"))) :=
  ⟨c7_wire_grammar 3 "move to absolute position" "90.0" "PA" rfl,
   c7_wire_grammar 3 "set velocity" "4" "VA" rfl⟩

/-- C8: a move whose computed absolute target equals either bound exactly
passes the inclusive check and the move-to-absolute-position command,
chained with the wait suffix, is handed to the transport. -/
theorem c8_boundary_move_accepted (axis : Nat) (bounds : ℚ × ℚ)
    (reported degrees : ℚ) (w : Nat → Bool) (q : Nat → Option String)
    (hb : bounds.1 ≤ bounds.2) (h : degrees = bounds.1 ∨ degrees = bounds.2) :
    (move_real axis bounds reported degrees .absolute w q).sent =
      some (toString axis ++ "PA" ++ pyFloatRepr degrees ++ ";"
        ++ toString axis ++ "WS" ++ "0") := by
  have hin : bounds.1 ≤ degrees ∧ degrees ≤ bounds.2 := by
    rcases h with rfl | rfl
    · exact ⟨le_refl _, hb⟩
    · exact ⟨hb, le_refl _⟩
  simp only [move_real, target_position]
  rw [if_pos hin]
  show (send_command_real axis "move to absolute position" (pyFloatRepr degrees) w q).written = _
  rw [send_command_real_written]
  exact full_command_move_abs axis _

/-- C8 witness: with bounds [-180, 180], the absolute move to the upper
bound 180 is accepted and sent. -/
theorem c8_boundary_move_accepted_witness :
    (move_real 1 (-180, 180) 0 180 .absolute (fun _ => true) (fun _ => some "0")).sent =
      some (toString 1 ++ "PA" ++ pyFloatRepr 180 ++ ";" ++ toString 1 ++ "WS" ++ "0") :=
  c8_boundary_move_accepted 1 (-180, 180) 0 180 (fun _ => true) (fun _ => some "0")
    (by norm_num) (Or.inr rfl)

/-- C9: counterexample.  A send_command call with an operation name absent
from COMMANDS raises KeyError, which nothing in the module catches: the
failure propagates out of the call instead of being returned as a per-call
failure result. -/
theorem c9_counterexample :
    (send_command_real 1 "frobnicate" "" (fun _ => true) (fun _ => some "0")).ret =
      .error (.keyError "frobnicate") :=
  rfl

/-- C9 (amended): an unknown operation name is detected before any I/O
occurs (nothing is written and no query is issued) but manifests as an
uncaught KeyError propagating to the caller, not as a handled per-call
failure. -/
theorem c9_unknown_operation_raises (axis : Nat) (c p : String) (w : Nat → Bool)
    (q : Nat → Option String) (h : dictLookup c COMMANDS = none) :
    send_command_real axis c p w q = ⟨.error (.keyError c), none, false, none⟩ := by
  have hf : full_command axis c p = none := by
    unfold full_command
    rw [h]
  rw [send_command_real_def, hf]

/-- C9 witness at a concrete unknown operation name. -/
theorem c9_unknown_operation_raises_witness :
    send_command_real 1 "frobnicate" "" (fun _ => false) (fun _ => none) =
      ⟨.error (.keyError "frobnicate"), none, false, none⟩ :=
  c9_unknown_operation_raises 1 "frobnicate" "" (fun _ => false) (fun _ => none) rfl

/-- C10: when the read-error-code query fails on all three attempts, the
query step evaluates to the literal string VisaIOError; send_command then
treats it as an unrecognized nonzero controller error code: it is not
stripped (a decimal axis id never matches the letter V), it differs from
0, it is not a key of ERROR_CODES, and the call returns False reported
through the generic error branch rather than any distinct transport
failure. -/
theorem c10_exhausted_query_reported_generic (axis : Nat) (c p opc : String)
    (w : Nat → Bool) (h : dictLookup c COMMANDS = some opc) :
    (query_command "TE?" (fun _ => none) 1).1 = "VisaIOError" ∧
    (send_command_real axis c p w (fun _ => none)).ret = .ok false ∧
    (send_command_real axis c p w (fun _ => none)).report = some ("VisaIOError", false) := by
  refine ⟨by rw [query_all_fail], ?_, ?_⟩ <;>
  · simp only [send_command_real_def, full_command_eq_some axis c p opc h,
      query_all_fail, strip_visa]
    rfl

/-- C10 witness at a concrete command. -/
theorem c10_exhausted_query_reported_generic_witness :
    (query_command "TE?" (fun _ => none) 1).1 = "VisaIOError" ∧
    (send_command_real 1 "set home search mode" "0" (fun _ => true) (fun _ => none)).ret = .ok false ∧
    (send_command_real 1 "set home search mode" "0" (fun _ => true) (fun _ => none)).report =
      some ("VisaIOError", false) :=
  c10_exhausted_query_reported_generic 1 "set home search mode" "0" "OM"
    (fun _ => true) rfl
